import Mathlib

/-!
Shallow embedding of the openplantbook-go client library
(package `openplantbook`): error taxonomy and classifier (`newAPIError`),
the HTTP request helper (`doRequest`), the in-memory TTL cache
(`InMemoryCache`), the client constructor (`New` / `configureAuth` /
`validate` and the functional options), the static-key transport
(`apiKeyTransport.RoundTrip`), and the two pipeline operations
(`SearchPlants`, `GetPlantDetails`).

Conventions of the embedding:
- Instants and durations are in nanoseconds, as `Nat` (Go `time.Time` /
  `time.Duration`); `time.Now()` is passed explicitly as a `now` argument.
- JSON (de)serialization is not modelled at the wire level: the
  `json.Marshal` / `json.Unmarshal` / `json.Decoder.Decode` calls appear as
  environment-supplied functions returning `Option` (`none` = Go error).
- Byte slices are modelled as `String`.
- Effectful calls made by an operation (cache `Get`/`Set`, limiter
  `Reserve`/`Wait`/token consumption/`Cancel`, HTTP dispatch) are recorded
  in an explicit `Effects` record returned next to the result.
-/

namespace OpenPlantbook

/-- Byte slices (`[]byte`); payload content is opaque to the pipeline. -/
abbrev Bytes := String

/-- Duration of one hour in nanoseconds (`time.Hour`). -/
def nsPerHour : Nat := 3600 * 1000000000

/-- Duration of 24 hours in nanoseconds (`24 * time.Hour`). -/
def hours24 : Nat := 24 * nsPerHour

/-- The error taxonomy of the library, flattened into one inductive:
the sentinel errors of `errors.go` (`ErrUnauthorized`,
`ErrMultipleAuthMethods`, `ErrNoAuthProvided`, `ErrRateLimitExceeded`,
`ErrNotFound`), the structured error types (`APIError`, `ValidationError`,
`ConfigError`, `ErrRateLimited`), the opaque platform failures the pipeline
can see (transport failure, JSON decode failure, context error during
`Wait`), and `fmt.Errorf("...: %w", e)` wrapping. -/
inductive OpbError where
  | unauthorized
  | notFound
  | rateLimitExceeded
  | apiError (statusCode : Nat) (endpoint : String) (message : String)
  | validation (message : String)
  | configError (message : String)
  | multipleAuthMethods
  | noAuthProvided
  | rateLimited (retryAfter : Nat) (message : String)
  | transportFailed
  | decodeFailed
  | ctxCancelled
  | wrap (opMessage : String) (cause : OpbError)
deriving Repr, DecidableEq

/-- Go `errors.Is`: the target is the error itself or is reachable by
unwrapping `fmt.Errorf("...: %w", cause)` layers. -/
def errorIs (e target : OpbError) : Bool :=
  if e == target then true
  else
    match e with
    | .wrap _ cause => errorIs cause target
    | _ => false

/-- `newAPIError` (errors.go): classify a non-2xx HTTP response by status.
401/403 wrap `ErrUnauthorized`, 404 wraps `ErrNotFound`, 429 wraps
`ErrRateLimitExceeded`, everything else is a bare `*APIError` carrying the
status code, the endpoint path and an `HTTP <status>` message. -/
def newAPIError (statusCode : Nat) (endpoint : String) : OpbError :=
  if statusCode == 401 || statusCode == 403 then
    .wrap "authentication failed" .unauthorized
  else if statusCode == 404 then
    .wrap "resource not found" .notFound
  else if statusCode == 429 then
    .wrap "rate limit exceeded" .rateLimitExceeded
  else
    .apiError statusCode endpoint ("HTTP " ++ toString statusCode)

/-- Outcome of `c.httpClient.Do(req)`: transport-level failure, or a
response with a status code and a body. -/
inductive HTTPOutcome where
  | transportError
  | response (statusCode : Nat) (body : Bytes)
deriving Repr, DecidableEq

/-- `doRequest` (plants.go): execute the request and decode the JSON body.
Transport errors are wrapped; a status `>= 400` is routed through
`newAPIError`; otherwise the body is decoded into the result (a decode
failure is wrapped as `decode response`). -/
def doRequest {α : Type} (decode : Bytes → Option α) (endpoint : String)
    (outcome : HTTPOutcome) : Except OpbError α :=
  match outcome with
  | .transportError => .error (.wrap "HTTP request failed" .transportFailed)
  | .response statusCode body =>
    if statusCode ≥ 400 then
      .error (newAPIError statusCode endpoint)
    else
      match decode body with
      | some v => .ok v
      | none => .error (.wrap "decode response" .decodeFailed)

/-! ## In-memory cache (cache.go) -/

/-- `cacheItem`: stored payload plus absolute expiration instant. -/
structure CacheItem where
  value : Bytes
  expiration : Nat
deriving Repr, DecidableEq

/-- `InMemoryCache`: the `map[string]*cacheItem` behind the RWMutex,
modelled as an association list with unique keys. -/
structure InMemoryCache where
  items : List (String × CacheItem)
deriving Repr, DecidableEq

/-- `NewInMemoryCache` map state (empty; the background sweep goroutine is
modelled by explicit `removeExpired` steps). -/
def InMemoryCache.empty : InMemoryCache := ⟨[]⟩

/-- `InMemoryCache.Get`: look the key up; an entry whose expiration
instant lies strictly before `now` (`time.Now().After(item.expiration)`)
reports not-found even though it is still in the map. -/
def InMemoryCache.get (c : InMemoryCache) (now : Nat) (key : String) :
    Option Bytes :=
  match c.items.find? (fun p => p.1 == key) with
  | none => none
  | some p => if p.2.expiration < now then none else some p.2.value

/-- `InMemoryCache.Set`: store the value with expiration `now + ttl`,
replacing any previous entry for the key (map assignment). -/
def InMemoryCache.set (c : InMemoryCache) (now : Nat) (key : String)
    (value : Bytes) (ttl : Nat) : InMemoryCache :=
  ⟨(key, ⟨value, now + ttl⟩) :: c.items.filter (fun p => p.1 != key)⟩

/-- `InMemoryCache.Delete`. -/
def InMemoryCache.delete (c : InMemoryCache) (key : String) : InMemoryCache :=
  ⟨c.items.filter (fun p => p.1 != key)⟩

/-- `InMemoryCache.removeExpired`: one tick of the background sweep,
deleting every entry whose expiration has passed. -/
def InMemoryCache.removeExpired (c : InMemoryCache) (now : Nat) :
    InMemoryCache :=
  ⟨c.items.filter (fun p => !(p.2.expiration < now))⟩

/-! ## Data model (models.go) -/

/-- `PlantSearchResult` (`alias` is a Lean keyword, hence `aliasName`). -/
structure PlantSearchResult where
  pid : String
  displayPid : String
  aliasName : String
  category : String
deriving Repr, DecidableEq

/-- `searchResponse`: the paginated envelope returned by `/plant/search`. -/
structure SearchResponse where
  count : Int
  next : Option String
  previous : Option String
  results : List PlantSearchResult
deriving Repr, DecidableEq

/-- `PlantDetails`. Go's `float64` temperature fields are modelled as `ℚ`;
no claim computes with them. -/
structure PlantDetails where
  pid : String
  displayPid : String
  aliasName : String
  maxLightLux : Int
  minLightLux : Int
  maxTemp : Rat
  minTemp : Rat
  maxEnvHumid : Int
  minEnvHumid : Int
  maxSoilMoist : Int
  minSoilMoist : Int
  maxSoilEC : Int
  minSoilEC : Int
  imageURL : String
  category : String
deriving Repr, DecidableEq

/-! ## Rate governor (golang.org/x/time/rate, as used by the pipeline) -/

/-- Modelled from the spec: the `RateLimitBehavior` enum set by
`WithRateLimitBehavior` and read by the operations. `RateLimitWait`
(block until allowed) is the zero-value default; `RateLimitError`
fails fast. Its declaration is not among the provided sources, only its
uses. -/
inductive RateLimitBehavior where
  | rateLimitWait
  | rateLimitError
deriving Repr, DecidableEq

/-- What `rateLimiter.Reserve()` reports for this call: `notOK` when the
limiter can never grant the token (`!reservation.OK()`), or a granted
reservation whose `Delay()` is `d` nanoseconds (`d = 0` means the token
is usable immediately). -/
inductive ReservationOutcome where
  | notOK
  | granted (delay : Nat)
deriving Repr, DecidableEq

/-- The observable behavior of the configured `*rate.Limiter` for one
call: the behavior mode of the client, what `Reserve()` would report, and
whether `Wait(ctx)` would return nil (`waitOK = false` models a context
cancellation / limiter error inside `Wait`). -/
structure RateLimitEnv where
  behavior : RateLimitBehavior
  reservation : ReservationOutcome
  waitOK : Bool
deriving Repr, DecidableEq

/-! ## Effects recorded by one operation call -/

/-- The externally visible side effects of one `SearchPlants` /
`GetPlantDetails` call: cache reads, limiter interactions, HTTP dispatches
and cache writes (key, payload, TTL). -/
structure Effects where
  cacheGets : Nat
  reserveCalls : Nat
  waitCalls : Nat
  tokensConsumed : Nat
  reserveCancels : Nat
  httpRequests : Nat
  cacheSets : List (String × Bytes × Nat)
deriving Repr, DecidableEq

/-- No effects yet. -/
def Effects.empty : Effects := ⟨0, 0, 0, 0, 0, 0, []⟩

/-- Componentwise accumulation of effects. -/
def Effects.add (a b : Effects) : Effects :=
  ⟨a.cacheGets + b.cacheGets, a.reserveCalls + b.reserveCalls,
   a.waitCalls + b.waitCalls, a.tokensConsumed + b.tokensConsumed,
   a.reserveCancels + b.reserveCancels, a.httpRequests + b.httpRequests,
   a.cacheSets ++ b.cacheSets⟩

/-- The rate-limiting block shared verbatim by `SearchPlants` and
`GetPlantDetails` (plants.go). With no limiter the call proceeds.
Under `RateLimitError`: `Reserve()`; if the reservation is not OK, fail
with `ErrRateLimited` at `now + 24h`; if its delay is positive, `Cancel()`
the reservation (token returned, not consumed) and fail with
`ErrRateLimited` at `now + delay`; at zero delay the token is consumed and
the call proceeds. Otherwise (default): `Wait(ctx)`, consuming a token on
success and failing with the wrapped wait error on cancellation. -/
def rateLimitGate (limiter : Option RateLimitEnv) (now : Nat) :
    Except OpbError Unit × Effects :=
  match limiter with
  | none => (.ok (), Effects.empty)
  | some l =>
    match l.behavior with
    | .rateLimitError =>
      match l.reservation with
      | .notOK =>
        (.error (.rateLimited (now + hours24) "rate limiter exhausted"),
         { Effects.empty with reserveCalls := 1 })
      | .granted delay =>
        if delay > 0 then
          (.error (.rateLimited (now + delay)
              "rate limit exceeded, please retry later"),
           { Effects.empty with reserveCalls := 1, reserveCancels := 1 })
        else
          (.ok (), { Effects.empty with reserveCalls := 1, tokensConsumed := 1 })
    | .rateLimitWait =>
      if l.waitOK then
        (.ok (), { Effects.empty with waitCalls := 1, tokensConsumed := 1 })
      else
        (.error (.wrap "rate limit wait" .ctxCancelled),
         { Effects.empty with waitCalls := 1 })

/-! ## Pipeline operations (plants.go) -/

/-- The environment one `SearchPlants` call runs in: what the cache
returns for this call's key, how `json.Unmarshal` behaves on the cached
payload, the limiter state, whether `newRequest` succeeds, the HTTP
outcome, the response decoder, and how `json.Marshal` behaves on the
results. `optsStr` is the `%v` rendering of the `*SearchOptions` used in
the cache key. -/
structure SearchEnv where
  optsStr : String
  cached : Option Bytes
  unmarshalCached : Bytes → Option (List PlantSearchResult)
  limiter : Option RateLimitEnv
  newRequestOK : Bool
  http : HTTPOutcome
  decodeBody : Bytes → Option SearchResponse
  marshalResults : List PlantSearchResult → Option Bytes
  now : Nat

/-- The cache-hit value of a `SearchPlants` call: `Get` hit and the
payload unmarshalled successfully. -/
def SearchEnv.hit (env : SearchEnv) : Option (List PlantSearchResult) :=
  match env.cached with
  | some data => env.unmarshalCached data
  | none => none

/-- `Client.SearchPlants`. Empty query fails Validation before anything
else; then cache `Get` (returning the unmarshalled hit immediately); then
the rate gate; then `newRequest` (wrapping its error); then `doRequest`
against `/plant/search` (wrapping its error as `search plants`); on
success, `Set` the marshalled results with a 1-hour TTL when `Marshal`
succeeds, and return the envelope's `Results`. -/
def searchPlants (env : SearchEnv) (query : String) :
    Except OpbError (List PlantSearchResult) × Effects :=
  if query == "" then
    (.error (.validation "query cannot be empty"), Effects.empty)
  else
    let cacheKey := "search:" ++ query ++ ":" ++ env.optsStr
    let eff0 : Effects := { Effects.empty with cacheGets := 1 }
    match env.hit with
    | some results => (.ok results, eff0)
    | none =>
      match rateLimitGate env.limiter env.now with
      | (.error e, gateEff) => (.error e, eff0.add gateEff)
      | (.ok _, gateEff) =>
        let eff1 := eff0.add gateEff
        if !env.newRequestOK then
          (.error (.wrap "create request" .transportFailed), eff1)
        else
          let eff2 := { eff1 with httpRequests := 1 }
          match doRequest env.decodeBody "/plant/search" env.http with
          | .error e => (.error (.wrap "search plants" e), eff2)
          | .ok resp =>
            match env.marshalResults resp.results with
            | some data =>
              (.ok resp.results,
               { eff2 with cacheSets := [(cacheKey, data, nsPerHour)] })
            | none => (.ok resp.results, eff2)

/-- The environment one `GetPlantDetails` call runs in; fields as in
`SearchEnv`, with the detail decoders and the `%v` rendering of the
`*DetailOptions`. -/
structure DetailEnv where
  optsStr : String
  cached : Option Bytes
  unmarshalCached : Bytes → Option PlantDetails
  limiter : Option RateLimitEnv
  newRequestOK : Bool
  http : HTTPOutcome
  decodeBody : Bytes → Option PlantDetails
  marshalDetails : PlantDetails → Option Bytes
  now : Nat

/-- The cache-hit value of a `GetPlantDetails` call. -/
def DetailEnv.hit (env : DetailEnv) : Option PlantDetails :=
  match env.cached with
  | some data => env.unmarshalCached data
  | none => none

/-- `Client.GetPlantDetails`. Same pipeline as `searchPlants`: empty pid
fails Validation; cache `Get`; rate gate; `newRequest`; `doRequest`
against `/plant/detail/<pid>` (wrapped as `get plant details`); on
success, `Set` the marshalled details with a 24-hour TTL when `Marshal`
succeeds. -/
def getPlantDetails (env : DetailEnv) (pid : String) :
    Except OpbError PlantDetails × Effects :=
  if pid == "" then
    (.error (.validation "pid cannot be empty"), Effects.empty)
  else
    let cacheKey := "detail:" ++ pid ++ ":" ++ env.optsStr
    let eff0 : Effects := { Effects.empty with cacheGets := 1 }
    match env.hit with
    | some details => (.ok details, eff0)
    | none =>
      match rateLimitGate env.limiter env.now with
      | (.error e, gateEff) => (.error e, eff0.add gateEff)
      | (.ok _, gateEff) =>
        let eff1 := eff0.add gateEff
        if !env.newRequestOK then
          (.error (.wrap "create request" .transportFailed), eff1)
        else
          let eff2 := { eff1 with httpRequests := 1 }
          match doRequest env.decodeBody ("/plant/detail/" ++ pid) env.http with
          | .error e => (.error (.wrap "get plant details" e), eff2)
          | .ok details =>
            match env.marshalDetails details with
            | some data =>
              (.ok details,
               { eff2 with cacheSets := [(cacheKey, data, 24 * nsPerHour)] })
            | none => (.ok details, eff2)

/-! ## HTTP requests and the static-key transport (client.go) -/

/-- An outbound `*http.Request`: URL plus headers. Go's `http.Header` maps
a key to its values; `Header.Set` replaces all values of the key, so an
association list with unique keys models it. -/
structure Request where
  url : String
  headers : List (String × String)
deriving Repr, DecidableEq

/-- `http.Header.Get`. -/
def getHeader (hs : List (String × String)) (key : String) : Option String :=
  (hs.find? (fun p => p.1 == key)).map (fun p => p.2)

/-- `http.Header.Set`: replace any existing values for the key. -/
def setHeader (hs : List (String × String)) (key value : String) :
    List (String × String) :=
  (key, value) :: hs.filter (fun p => p.1 != key)

/-- `http.Request.Clone`: a deep copy sharing no mutable state with the
original. -/
def Request.clone (req : Request) : Request := req

/-- `Request.Header.Set` on a request value. -/
def Request.setHeader (req : Request) (key value : String) : Request :=
  { req with headers := OpenPlantbook.setHeader req.headers key value }

/-- `apiKeyTransport.RoundTrip`: clone the request, set
`Authorization: Token <key>` on the clone, and hand the clone to the
wrapped transport. Returns the request actually dispatched together with
the caller's request object after the call (which the code never
touches: only the clone is mutated). -/
def apiKeyTransportRoundTrip (apiKey : String) (req : Request) :
    Request × Request :=
  let dispatched := (req.clone).setHeader "Authorization" ("Token " ++ apiKey)
  (dispatched, req)

/-! ## Client construction (client.go, options.go) -/

/-- The `http.Client` held by a `Client`, identified by how it was made:
supplied by the caller (`WithHTTPClient`, opaque identity), built around
`apiKeyTransport`, or built by `clientcredentials.Config.Client`. -/
inductive HTTPClient where
  | custom (id : Nat)
  | apiKeyAuth (apiKey : String)
  | oauth2Auth (clientID clientSecret : String)
deriving Repr, DecidableEq

/-- The `Client` struct fields the constructor manipulates. The cache and
limiter are modelled by presence (nil vs non-nil) plus the limiter's
requests-per-day; concrete cache/limiter state lives in the operation
environments above. -/
structure ClientState where
  httpClient : Option HTTPClient
  baseURL : String
  rateLimiterPerDay : Option Int
  cachePresent : Bool
  loggerPresent : Bool
  apiKey : String
  clientID : String
  clientSecret : String
  rateLimitBehavior : RateLimitBehavior
deriving Repr, DecidableEq

/-- The draft `Client` `New` starts from: default base URL, default
200-per-day limiter, in-memory cache, no logger, no credentials,
zero-value behavior. -/
def defaultClientState : ClientState :=
  { httpClient := none
    baseURL := "https://open.plantbook.io/api/v1"
    rateLimiterPerDay := some 200
    cachePresent := true
    loggerPresent := false
    apiKey := ""
    clientID := ""
    clientSecret := ""
    rateLimitBehavior := .rateLimitWait }

/-- The functional options (options.go). `withHTTPClient` and `withCache`
carry a value that cannot be Go-nil (their nil rejection has no
counterpart for a non-nullable argument); `withCache` is split into the
supplied-cache case only, presence being all the constructor checks. -/
inductive ClientOption where
  | withAPIKey (apiKey : String)
  | withOAuth2 (clientID clientSecret : String)
  | withBaseURL (url : String)
  | withHTTPClient (id : Nat)
  | withCache
  | withRateLimit (requestsPerDay : Int)
  | withLogger
  | disableRateLimit
  | withRateLimitBehavior (behavior : RateLimitBehavior)
deriving Repr, DecidableEq

/-- Apply one option to the draft client (each `Option` is a
`func(*Client) error`). -/
def applyOption (opt : ClientOption) (c : ClientState) :
    Except OpbError ClientState :=
  match opt with
  | .withAPIKey apiKey =>
    if apiKey == "" then .error (.configError "API key cannot be empty")
    else .ok { c with apiKey := apiKey }
  | .withOAuth2 clientID clientSecret =>
    if clientID == "" || clientSecret == "" then
      .error (.configError "client_id and client_secret cannot be empty")
    else .ok { c with clientID := clientID, clientSecret := clientSecret }
  | .withBaseURL url =>
    if url == "" then .error (.configError "base URL cannot be empty")
    else .ok { c with baseURL := url }
  | .withHTTPClient id => .ok { c with httpClient := some (.custom id) }
  | .withCache => .ok { c with cachePresent := true }
  | .withRateLimit requestsPerDay =>
    if requestsPerDay ≤ 0 then
      .error (.configError "rate limit must be positive")
    else .ok { c with rateLimiterPerDay := some requestsPerDay }
  | .withLogger => .ok { c with loggerPresent := true }
  | .disableRateLimit => .ok { c with rateLimiterPerDay := none }
  | .withRateLimitBehavior behavior =>
    .ok { c with rateLimitBehavior := behavior }

/-- Apply the options in order; the first failing option aborts `New`. -/
def applyOptions (opts : List ClientOption) (c : ClientState) :
    Except OpbError ClientState :=
  match opts with
  | [] => .ok c
  | opt :: rest =>
    match applyOption opt c with
    | .error e => .error e
    | .ok c' => applyOptions rest c'

/-- `Client.configureAuth`: skip entirely when an HTTP client was
supplied; otherwise require exactly one auth method and build the
matching transport (`hasOAuth2` is true when either OAuth2 field is
set). -/
def configureAuth (c : ClientState) : Except OpbError ClientState :=
  let hasAPIKey := c.apiKey != ""
  let hasOAuth2 := c.clientID != "" || c.clientSecret != ""
  if c.httpClient.isSome then .ok c
  else if hasAPIKey && hasOAuth2 then .error .multipleAuthMethods
  else if !hasAPIKey && !hasOAuth2 then .error .noAuthProvided
  else if hasAPIKey then
    .ok { c with httpClient := some (.apiKeyAuth c.apiKey) }
  else if c.clientID == "" || c.clientSecret == "" then
    .error (.configError "both client_id and client_secret required for OAuth2")
  else
    .ok { c with httpClient := some (.oauth2Auth c.clientID c.clientSecret) }

/-- `Client.validate` (returning the validated client for convenience). -/
def validateClient (c : ClientState) : Except OpbError ClientState :=
  if c.baseURL == "" then .error (.configError "base URL cannot be empty")
  else if c.httpClient.isNone then
    .error (.configError "HTTP client cannot be nil")
  else if !c.cachePresent then .error (.configError "cache cannot be nil")
  else .ok c

/-- `New`: defaults, then options in order, then `configureAuth`, then
`validate`. -/
def new (opts : List ClientOption) : Except OpbError ClientState :=
  match applyOptions opts defaultClientState with
  | .error e => .error e
  | .ok c =>
    match configureAuth c with
    | .error e => .error e
    | .ok c' => validateClient c'

/-! ## Theorems -/

/-- C5: immediately after `Set(key, value, d)` on the in-memory cache,
`Get(key)` returns the value as found; and any `Get(key)` performed
strictly after `d` has elapsed since the `Set` reports not-found, even
though the entry is still in the map (no sweep has run). -/
theorem inMemoryCache_set_get_ttl (c : InMemoryCache) (now : Nat)
    (key : String) (value : Bytes) (d : Nat) (later : Nat)
    (h : now + d < later) :
    (c.set now key value d).get now key = some value ∧
    (c.set now key value d).get later key = none := by
  have hfind : ((c.set now key value d).items.find? (fun p => p.1 == key))
      = some (key, ⟨value, now + d⟩) := by
    simp [InMemoryCache.set, List.find?]
  refine ⟨?_, ?_⟩
  · simp only [InMemoryCache.get, hfind]
    rw [if_neg (by omega)]
  · simp only [InMemoryCache.get, hfind]
    rw [if_pos (by omega)]

/-- Witness for C5 at a concrete cache, key and TTL. -/
theorem inMemoryCache_set_get_ttl_witness :
    (InMemoryCache.empty.set 5 "k" "v" 10).get 5 "k" = some "v" ∧
    (InMemoryCache.empty.set 5 "k" "v" 10).get 16 "k" = none :=
  inMemoryCache_set_get_ttl InMemoryCache.empty 5 "k" "v" 10 16 (by decide)

/-- C8: the request dispatched by `apiKeyTransport.RoundTrip` carries
`Authorization: Token <key>`, keeps the caller's URL and all other
headers, and the caller's original request object is returned
unmodified (the header is set on the clone only). -/
theorem apiKeyTransport_roundTrip_spec (apiKey : String) (req : Request) :
    getHeader (apiKeyTransportRoundTrip apiKey req).1.headers "Authorization"
        = some ("Token " ++ apiKey) ∧
    (apiKeyTransportRoundTrip apiKey req).1.url = req.url ∧
    ((apiKeyTransportRoundTrip apiKey req).1.headers.filter
        (fun p => p.1 != "Authorization"))
      = req.headers.filter (fun p => p.1 != "Authorization") ∧
    (apiKeyTransportRoundTrip apiKey req).2 = req := by
  refine ⟨?_, rfl, ?_, rfl⟩
  · simp [apiKeyTransportRoundTrip, Request.clone, Request.setHeader,
      setHeader, getHeader, List.find?]
  · simp only [apiKeyTransportRoundTrip, Request.clone, Request.setHeader,
      setHeader]
    rw [List.filter]
    simp [List.filter_filter]

/-- C7: an empty query / empty pid fails Validation with no cache read,
no rate-governor interaction and no network request. -/
theorem operations_empty_input (envS : SearchEnv) (envD : DetailEnv) :
    searchPlants envS ""
        = (.error (.validation "query cannot be empty"), Effects.empty) ∧
    getPlantDetails envD ""
        = (.error (.validation "pid cannot be empty"), Effects.empty) := by
  exact ⟨rfl, rfl⟩

/-- C1: on a cache hit whose payload unmarshals successfully, both
operations return the deserialized result with one cache read and
nothing else: no `Reserve`, no `Wait`, no token, no HTTP dispatch, no
cache write. -/
theorem cache_hit_returns_immediately
    (envS : SearchEnv) (query : String) (hq : query ≠ "")
    (dataS : Bytes) (hcS : envS.cached = some dataS)
    (resultsS : List PlantSearchResult)
    (huS : envS.unmarshalCached dataS = some resultsS)
    (envD : DetailEnv) (pid : String) (hp : pid ≠ "")
    (dataD : Bytes) (hcD : envD.cached = some dataD)
    (detailsD : PlantDetails)
    (huD : envD.unmarshalCached dataD = some detailsD) :
    searchPlants envS query
        = (.ok resultsS, { Effects.empty with cacheGets := 1 }) ∧
    getPlantDetails envD pid
        = (.ok detailsD, { Effects.empty with cacheGets := 1 }) := by
  constructor
  · have hq' : (query == "") = false := by simpa using hq
    simp [searchPlants, hq', SearchEnv.hit, hcS, huS]
  · have hp' : (pid == "") = false := by simpa using hp
    simp [getPlantDetails, hp', DetailEnv.hit, hcD, huD]

/-- Witness for C1 at concrete environments. -/
theorem cache_hit_returns_immediately_witness :
    searchPlants
        { optsStr := "<nil>", cached := some "[]",
          unmarshalCached := fun _ => some [], limiter := none,
          newRequestOK := true, http := .transportError,
          decodeBody := fun _ => none, marshalResults := fun _ => none,
          now := 0 } "monstera"
      = (.ok [], { Effects.empty with cacheGets := 1 }) ∧
    getPlantDetails
        { optsStr := "<nil>", cached := some "x",
          unmarshalCached := fun _ =>
            some ⟨"p", "P", "a", 0, 0, 0, 0, 0, 0, 0, 0, 0, 0, "", ""⟩,
          limiter := none, newRequestOK := true, http := .transportError,
          decodeBody := fun _ => none, marshalDetails := fun _ => none,
          now := 0 } "pid"
      = (.ok ⟨"p", "P", "a", 0, 0, 0, 0, 0, 0, 0, 0, 0, 0, "", ""⟩,
         { Effects.empty with cacheGets := 1 }) :=
  cache_hit_returns_immediately _ "monstera" (by decide) "[]" rfl [] rfl
    _ "pid" (by decide) "x" rfl ⟨"p", "P", "a", 0, 0, 0, 0, 0, 0, 0, 0, 0, 0, "", ""⟩ rfl

/-- C10: a cache hit whose payload fails to unmarshal is treated exactly
as a cache miss: the call behaves identically (same result, same
effects) to the same call with no cached entry, and the deserialization
failure is never surfaced. -/
theorem corrupt_cache_entry_ignored
    (envS : SearchEnv) (query : String) (dataS : Bytes)
    (hcS : envS.cached = some dataS)
    (huS : envS.unmarshalCached dataS = none)
    (envD : DetailEnv) (pid : String) (dataD : Bytes)
    (hcD : envD.cached = some dataD)
    (huD : envD.unmarshalCached dataD = none) :
    searchPlants envS query = searchPlants { envS with cached := none } query ∧
    getPlantDetails envD pid
        = getPlantDetails { envD with cached := none } pid := by
  constructor
  · unfold searchPlants
    simp [SearchEnv.hit, hcS, huS]
  · unfold getPlantDetails
    simp [DetailEnv.hit, hcD, huD]

/-- Witness for C10 at concrete environments: the corrupt-entry run and
the miss run coincide. -/
theorem corrupt_cache_entry_ignored_witness :
    searchPlants
        { optsStr := "<nil>", cached := some "garbage",
          unmarshalCached := fun _ => none, limiter := none,
          newRequestOK := true, http := .response 200 "[]",
          decodeBody := fun _ => some ⟨0, none, none, []⟩,
          marshalResults := fun _ => none, now := 0 } "monstera"
      = searchPlants
        { optsStr := "<nil>", cached := none,
          unmarshalCached := fun _ => none, limiter := none,
          newRequestOK := true, http := .response 200 "[]",
          decodeBody := fun _ => some ⟨0, none, none, []⟩,
          marshalResults := fun _ => none, now := 0 } "monstera" ∧
    getPlantDetails
        { optsStr := "<nil>", cached := some "garbage",
          unmarshalCached := fun _ => none, limiter := none,
          newRequestOK := true, http := .transportError,
          decodeBody := fun _ => none, marshalDetails := fun _ => none,
          now := 0 } "pid"
      = getPlantDetails
        { optsStr := "<nil>", cached := none,
          unmarshalCached := fun _ => none, limiter := none,
          newRequestOK := true, http := .transportError,
          decodeBody := fun _ => none, marshalDetails := fun _ => none,
          now := 0 } "pid" :=
  corrupt_cache_entry_ignored _ "monstera" "garbage" rfl rfl
    _ "pid" "garbage" rfl rfl

/-- C2 (amended): for every HTTP response with status `>= 400`, `doRequest`
returns the classifier's error and never a decoded result: 401/403 match
`ErrUnauthorized`, 404 matches `ErrNotFound`, 429 matches
`ErrRateLimitExceeded`, and every other status `>= 400` yields the generic
`APIError` carrying the status code and the endpoint path. (Statuses below
400 — including non-2xx 1xx/3xx responses — are not classified; see the
counterexample.) -/
theorem doRequest_classifies_status_ge_400 {α : Type}
    (decode : Bytes → Option α) (endpoint : String) (statusCode : Nat)
    (body : Bytes) (h : 400 ≤ statusCode) :
    doRequest decode endpoint (.response statusCode body)
        = .error (newAPIError statusCode endpoint) ∧
    ((statusCode = 401 ∨ statusCode = 403) →
        errorIs (newAPIError statusCode endpoint) .unauthorized = true) ∧
    (statusCode = 404 →
        errorIs (newAPIError statusCode endpoint) .notFound = true) ∧
    (statusCode = 429 →
        errorIs (newAPIError statusCode endpoint) .rateLimitExceeded = true) ∧
    (statusCode ≠ 401 → statusCode ≠ 403 → statusCode ≠ 404 →
        statusCode ≠ 429 →
        newAPIError statusCode endpoint
          = .apiError statusCode endpoint ("HTTP " ++ toString statusCode)) ∧
    (∀ (env : SearchEnv) (query : String), query ≠ "" → env.hit = none →
        env.limiter = none → env.newRequestOK = true →
        env.http = .response statusCode body →
        (searchPlants env query).1
          = .error (.wrap "search plants"
              (newAPIError statusCode "/plant/search"))) ∧
    (∀ (env : DetailEnv) (pid : String), pid ≠ "" → env.hit = none →
        env.limiter = none → env.newRequestOK = true →
        env.http = .response statusCode body →
        (getPlantDetails env pid).1
          = .error (.wrap "get plant details"
              (newAPIError statusCode ("/plant/detail/" ++ pid)))) := by
  refine ⟨?_, ?_, ?_, ?_, ?_, ?_, ?_⟩
  · simp [doRequest, h]
  · rintro (rfl | rfl) <;> simp [newAPIError, errorIs]
  · rintro rfl; simp [newAPIError, errorIs]
  · rintro rfl; simp [newAPIError, errorIs]
  · intro h1 h2 h3 h4
    simp [newAPIError, h1, h2, h3, h4]
  · intro env query hq hm hl hreq hhttp
    have hq' : (query == "") = false := by simpa using hq
    simp [searchPlants, hq', hm, hl, rateLimitGate, hreq, hhttp,
      doRequest, h]
  · intro env pid hp hm hl hreq hhttp
    have hp' : (pid == "") = false := by simpa using hp
    simp [getPlantDetails, hp', hm, hl, rateLimitGate, hreq, hhttp,
      doRequest, h]

/-- Witness for C2 at status 500. -/
theorem doRequest_classifies_status_ge_400_witness :
    doRequest (fun _ => (none : Option SearchResponse)) "/plant/search"
        (.response 500 "")
      = .error (newAPIError 500 "/plant/search") :=
  (doRequest_classifies_status_ge_400
      (fun _ => (none : Option SearchResponse)) "/plant/search" 500 ""
      (by decide)).1

/-- C2 counterexample: status 302 is non-2xx, yet `doRequest` does not
route it through the classifier — the body is decoded and a result is
returned (the code only classifies `statusCode >= 400`). -/
theorem doRequest_non2xx_below_400_not_classified :
    ¬ (200 ≤ 302 ∧ 302 ≤ 299) ∧
    doRequest (fun _ => some ([] : List PlantSearchResult)) "/plant/search"
        (.response 302 "") = .ok [] := by
  exact ⟨by decide, rfl⟩

/-- One applied option preserves the facts `validate` checks besides the
HTTP client: a non-empty base URL and a present cache. -/
theorem applyOption_preserves_validity (opt : ClientOption)
    (c c1 : ClientState) (h : applyOption opt c = .ok c1)
    (hb : c.baseURL ≠ "") (hc : c.cachePresent = true) :
    c1.baseURL ≠ "" ∧ c1.cachePresent = true := by
  cases opt <;> simp only [applyOption] at h <;>
    (try split at h) <;> (try cases h) <;> simp_all

/-- Applying a list of options preserves a non-empty base URL and a
present cache. -/
theorem applyOptions_preserves_validity (opts : List ClientOption)
    (c c' : ClientState) (h : applyOptions opts c = .ok c')
    (hb : c.baseURL ≠ "") (hc : c.cachePresent = true) :
    c'.baseURL ≠ "" ∧ c'.cachePresent = true := by
  induction opts generalizing c with
  | nil =>
    simp only [applyOptions] at h
    cases h; exact ⟨hb, hc⟩
  | cons opt rest ih =>
    simp only [applyOptions] at h
    cases hstep : applyOption opt c with
    | error e => rw [hstep] at h; cases h
    | ok c1 =>
      rw [hstep] at h
      obtain ⟨hb1, hc1⟩ := applyOption_preserves_validity opt c c1 hstep hb hc
      exact ih c1 h hb1 hc1

/-- C4: a construction whose applied options leave no caller-supplied
HTTP transport fails with `ErrMultipleAuthMethods` when both a static key
and an OAuth2 credential is set, fails with the distinct
`ErrNoAuthProvided` when neither is set, and succeeds when exactly one
method is configured (non-empty key, or non-empty id and secret
together). -/
theorem new_exactly_one_auth_method (opts : List ClientOption)
    (c : ClientState) (happ : applyOptions opts defaultClientState = .ok c)
    (hnoT : c.httpClient = none) :
    (c.apiKey ≠ "" ∧ (c.clientID ≠ "" ∨ c.clientSecret ≠ "") →
        new opts = .error .multipleAuthMethods) ∧
    (c.apiKey = "" ∧ c.clientID = "" ∧ c.clientSecret = "" →
        new opts = .error .noAuthProvided) ∧
    (c.apiKey ≠ "" ∧ c.clientID = "" ∧ c.clientSecret = "" →
        new opts
          = .ok { c with httpClient := some (.apiKeyAuth c.apiKey) }) ∧
    (c.apiKey = "" ∧ c.clientID ≠ "" ∧ c.clientSecret ≠ "" →
        new opts
          = .ok { c with
              httpClient := some (.oauth2Auth c.clientID c.clientSecret) }) ∧
    OpbError.multipleAuthMethods ≠ OpbError.noAuthProvided := by
  have hval := applyOptions_preserves_validity opts defaultClientState c happ
      (by decide) rfl
  refine ⟨?_, ?_, ?_, ?_, by decide⟩
  · rintro ⟨hk, ho⟩
    have hk' : (c.apiKey != "") = true := by simpa using hk
    have ho' : (c.clientID != "" || c.clientSecret != "") = true := by
      rcases ho with ho | ho <;> simp [ho]
    simp [new, happ, configureAuth, hnoT, hk', ho']
  · rintro ⟨hk, hi, hs⟩
    simp [new, happ, configureAuth, hnoT, hk, hi, hs]
  · rintro ⟨hk, hi, hs⟩
    have hk' : (c.apiKey != "") = true := by simpa using hk
    simp [new, happ, configureAuth, hnoT, hk', hi, hs, validateClient,
      hval.1, hval.2]
  · rintro ⟨hk, hi, hs⟩
    have hi' : (c.clientID != "") = true := by simpa using hi
    have hs' : (c.clientSecret != "") = true := by simpa using hs
    simp [new, happ, configureAuth, hnoT, hk, hi', hs', hi, hs,
      validateClient, hval.1, hval.2]

/-- Witness for C4: a single static key succeeds. -/
theorem new_exactly_one_auth_method_witness :
    new [ClientOption.withAPIKey "k"]
      = .ok { defaultClientState with
          apiKey := "k", httpClient := some (.apiKeyAuth "k") } := by
  have h := new_exactly_one_auth_method [ClientOption.withAPIKey "k"]
      { defaultClientState with apiKey := "k" } (by rfl) rfl
  exact h.2.2.1 ⟨by decide, rfl, rfl⟩

/-- C9: when the applied options supply an HTTP client, construction
skips authentication resolution entirely and succeeds with the client
state unchanged — whatever the credential fields hold — and the supplied
transport is the one kept. -/
theorem new_custom_transport_bypasses_auth (opts : List ClientOption)
    (c : ClientState) (happ : applyOptions opts defaultClientState = .ok c)
    (t : HTTPClient) (hT : c.httpClient = some t) :
    new opts = .ok c ∧ c.httpClient = some t := by
  have hval := applyOptions_preserves_validity opts defaultClientState c happ
      (by decide) rfl
  refine ⟨?_, hT⟩
  have hsome : c.httpClient.isSome = true := by simp [hT]
  simp [new, happ, configureAuth, hsome, validateClient, hval.1, hval.2, hT]

/-- Witness for C9: both auth methods plus a supplied transport still
succeed, keeping the supplied transport. -/
theorem new_custom_transport_bypasses_auth_witness :
    new [ClientOption.withAPIKey "k", ClientOption.withOAuth2 "i" "s",
         ClientOption.withHTTPClient 7]
      = .ok { defaultClientState with
          apiKey := "k", clientID := "i", clientSecret := "s",
          httpClient := some (.custom 7) } :=
  (new_custom_transport_bypasses_auth
      [ClientOption.withAPIKey "k", ClientOption.withOAuth2 "i" "s",
       ClientOption.withHTTPClient 7]
      { defaultClientState with
          apiKey := "k", clientID := "i", clientSecret := "s",
          httpClient := some (.custom 7) }
      (by rfl) (.custom 7) rfl).1

/-- The rate gate itself never touches the cache or the network. -/
theorem rateLimitGate_no_cache_no_http (limiter : Option RateLimitEnv)
    (now : Nat) :
    (rateLimitGate limiter now).2.cacheSets = [] ∧
    (rateLimitGate limiter now).2.httpRequests = 0 ∧
    (rateLimitGate limiter now).2.cacheGets = 0 := by
  unfold rateLimitGate
  repeat' split
  all_goals simp [Effects.empty]

/-- C6: whenever an operation returns an error — validation,
rate-limited, transport, or classified API error — no cache `Set` is
performed; writes happen only after a fully successful decode. -/
theorem error_leaves_cache_unchanged :
    (∀ (env : SearchEnv) (query : String) (e : OpbError),
        (searchPlants env query).1 = .error e →
        (searchPlants env query).2.cacheSets = []) ∧
    (∀ (env : DetailEnv) (pid : String) (e : OpbError),
        (getPlantDetails env pid).1 = .error e →
        (getPlantDetails env pid).2.cacheSets = []) := by
  constructor
  · intro env query e
    unfold searchPlants
    split
    · intro _; rfl
    · split
      · intro h; exact absurd h (by simp)
      · split
        next e' gateEff heq =>
          intro _
          have hg := (rateLimitGate_no_cache_no_http env.limiter env.now).1
          rw [heq] at hg
          simpa [Effects.add, Effects.empty] using hg
        next u gateEff heq =>
          have hg := (rateLimitGate_no_cache_no_http env.limiter env.now).1
          rw [heq] at hg
          split
          · intro _
            simpa [Effects.add, Effects.empty] using hg
          · split
            · intro _
              simpa [Effects.add, Effects.empty] using hg
            · split
              · intro h; exact absurd h (by simp)
              · intro h; exact absurd h (by simp)
  · intro env pid e
    unfold getPlantDetails
    split
    · intro _; rfl
    · split
      · intro h; exact absurd h (by simp)
      · split
        next e' gateEff heq =>
          intro _
          have hg := (rateLimitGate_no_cache_no_http env.limiter env.now).1
          rw [heq] at hg
          simpa [Effects.add, Effects.empty] using hg
        next u gateEff heq =>
          have hg := (rateLimitGate_no_cache_no_http env.limiter env.now).1
          rw [heq] at hg
          split
          · intro _
            simpa [Effects.add, Effects.empty] using hg
          · split
            · intro _
              simpa [Effects.add, Effects.empty] using hg
            · split
              · intro h; exact absurd h (by simp)
              · intro h; exact absurd h (by simp)

/-- Witness for C6: an empty query errors and the cache is untouched. -/
theorem error_leaves_cache_unchanged_witness :
    (searchPlants
        { optsStr := "<nil>", cached := none,
          unmarshalCached := fun _ => none, limiter := none,
          newRequestOK := true, http := .transportError,
          decodeBody := fun _ => none, marshalResults := fun _ => none,
          now := 0 } "").2.cacheSets = [] :=
  error_leaves_cache_unchanged.1
    { optsStr := "<nil>", cached := none,
      unmarshalCached := fun _ => none, limiter := none,
      newRequestOK := true, http := .transportError,
      decodeBody := fun _ => none, marshalResults := fun _ => none,
      now := 0 } ""
    (.validation "query cannot be empty") rfl

/-- C3: under fail-fast behavior with an enabled governor, a call that
reaches the rate check (nonempty input, cache miss) behaves as follows.
If the reservation can never be granted, the call fails immediately with
`ErrRateLimited` resuming at `now + 24h`, consuming no token. If the
reservation carries a positive delay, it is cancelled (token returned,
not consumed) and the call fails immediately with `ErrRateLimited`
resuming at `now + delay`. If the token is available with zero delay, it
is consumed and the call proceeds to dispatch exactly as an unthrottled
call would. -/
theorem failfast_rate_limit
    (envS : SearchEnv) (query : String) (hq : query ≠ "")
    (hmS : envS.hit = none) (l : RateLimitEnv)
    (hlS : envS.limiter = some l) (hb : l.behavior = .rateLimitError)
    (envD : DetailEnv) (pid : String) (hp : pid ≠ "")
    (hmD : envD.hit = none) (hlD : envD.limiter = some l) :
    (l.reservation = .notOK →
      searchPlants envS query
        = (.error (.rateLimited (envS.now + hours24) "rate limiter exhausted"),
           { Effects.empty with cacheGets := 1, reserveCalls := 1 }) ∧
      getPlantDetails envD pid
        = (.error (.rateLimited (envD.now + hours24) "rate limiter exhausted"),
           { Effects.empty with cacheGets := 1, reserveCalls := 1 })) ∧
    (∀ d : Nat, 0 < d → l.reservation = .granted d →
      searchPlants envS query
        = (.error (.rateLimited (envS.now + d)
              "rate limit exceeded, please retry later"),
           { Effects.empty with
              cacheGets := 1, reserveCalls := 1, reserveCancels := 1 }) ∧
      getPlantDetails envD pid
        = (.error (.rateLimited (envD.now + d)
              "rate limit exceeded, please retry later"),
           { Effects.empty with
              cacheGets := 1, reserveCalls := 1, reserveCancels := 1 })) ∧
    (l.reservation = .granted 0 →
      searchPlants envS query
        = ((searchPlants { envS with limiter := none } query).1,
           { (searchPlants { envS with limiter := none } query).2 with
              reserveCalls := 1, tokensConsumed := 1 }) ∧
      getPlantDetails envD pid
        = ((getPlantDetails { envD with limiter := none } pid).1,
           { (getPlantDetails { envD with limiter := none } pid).2 with
              reserveCalls := 1, tokensConsumed := 1 })) := by
  have hq' : (query == "") = false := by simpa using hq
  have hp' : (pid == "") = false := by simpa using hp
  refine ⟨?_, ?_, ?_⟩
  · intro hres
    constructor
    · simp [searchPlants, hq', hmS, rateLimitGate, hlS, hb, hres,
        Effects.add, Effects.empty]
    · simp [getPlantDetails, hp', hmD, rateLimitGate, hlD, hb, hres,
        Effects.add, Effects.empty]
  · intro d hd hres
    constructor
    · simp [searchPlants, hq', hmS, rateLimitGate, hlS, hb, hres, hd,
        Effects.add, Effects.empty]
    · simp [getPlantDetails, hp', hmD, rateLimitGate, hlD, hb, hres, hd,
        Effects.add, Effects.empty]
  · intro hres
    have hmS' : SearchEnv.hit { envS with limiter := none } = none := hmS
    have hmD' : DetailEnv.hit { envD with limiter := none } = none := hmD
    constructor
    · unfold searchPlants
      simp only [hq', Bool.false_eq_true, if_false, hmS, hmS',
        rateLimitGate, hlS, hb, hres, gt_iff_lt, lt_self_iff_false]
      repeat' split
      all_goals simp_all [Effects.add, Effects.empty]
    · unfold getPlantDetails
      simp only [hp', Bool.false_eq_true, if_false, hmD, hmD',
        rateLimitGate, hlD, hb, hres, gt_iff_lt, lt_self_iff_false]
      repeat' split
      all_goals simp_all [Effects.add, Effects.empty]

/-- Witness for C3 at a concrete exhausted governor: both operations
fail immediately with resume-after `now + 24h` and consume nothing. -/
theorem failfast_rate_limit_witness :
    searchPlants
        { optsStr := "<nil>", cached := none,
          unmarshalCached := fun _ => none,
          limiter := some ⟨.rateLimitError, .notOK, true⟩,
          newRequestOK := true, http := .transportError,
          decodeBody := fun _ => none, marshalResults := fun _ => none,
          now := 100 } "monstera"
      = (.error (.rateLimited (100 + hours24) "rate limiter exhausted"),
         { Effects.empty with cacheGets := 1, reserveCalls := 1 }) ∧
    getPlantDetails
        { optsStr := "<nil>", cached := none,
          unmarshalCached := fun _ => none,
          limiter := some ⟨.rateLimitError, .notOK, true⟩,
          newRequestOK := true, http := .transportError,
          decodeBody := fun _ => none, marshalDetails := fun _ => none,
          now := 100 } "pid"
      = (.error (.rateLimited (100 + hours24) "rate limiter exhausted"),
         { Effects.empty with cacheGets := 1, reserveCalls := 1 }) :=
  (failfast_rate_limit
      { optsStr := "<nil>", cached := none,
        unmarshalCached := fun _ => none,
        limiter := some ⟨.rateLimitError, .notOK, true⟩,
        newRequestOK := true, http := .transportError,
        decodeBody := fun _ => none, marshalResults := fun _ => none,
        now := 100 } "monstera" (by decide) rfl
      ⟨.rateLimitError, .notOK, true⟩ rfl rfl
      { optsStr := "<nil>", cached := none,
        unmarshalCached := fun _ => none,
        limiter := some ⟨.rateLimitError, .notOK, true⟩,
        newRequestOK := true, http := .transportError,
        decodeBody := fun _ => none, marshalDetails := fun _ => none,
        now := 100 } "pid" (by decide) rfl rfl).1 rfl

end OpenPlantbook
